import Mathlib

/-!
Verification development for the keystore and transfer orchestration core of
the solana-keygen wallet (src/src/App.js). The functions below are a shallow
embedding of the source: external library capabilities (the PublicKey
constructor, the on-curve check, base58 codec, keypair derivation) and the
network connection are modelled as explicit oracle records, effects such as
Date.now() become parameters, amounts are exact rationals, and each operation
also returns the trace of observable calls it made.
-/

namespace SolanaKeygen

/-- Conversion constant between the base unit (lamports) and the display unit
(SOL), LAMPORTS_PER_SOL of the web3 library, used at lines 97, 120 and 191 of
App.js. -/
def LAMPORTS_PER_SOL : ℚ := 1000000000

/-- Fee headroom constant of the balance pre-check at line 171 of App.js, the
literal 0.000005 added to the transfer amount. -/
def FEE_RESERVE : ℚ := 5 / 1000000

/-- KeypairRecord: one entry of the addresses array of App.js. Fields are
Option-typed because records can also enter the book through JSON import,
where any field may be absent; records made by createSolanaAddress populate
every field. A balance of none models a record whose balance field is absent,
which behaves like NaN under the numeric comparisons of the source. -/
structure Rec where
  id : Option Int
  publicKey : Option String
  privateKey : Option String
  showPrivate : Option Bool
  balance : Option ℚ
deriving Repr, DecidableEq

/-- External cryptographic and codec capabilities consumed by App.js: the
PublicKey constructor (throws on a malformed address, modelled as Except),
the on-curve check, base58 decoding (throws on bad input), and public key
derivation from a decoded secret. parsePubkey and bs58decode take an Option
String because the source can pass an absent field, on which the real
libraries throw. -/
structure Crypto where
  parsePubkey : Option String → Except String String
  isOnCurve : String → Bool
  bs58decode : Option String → Except String (List Nat)
  fromSecretKey : List Nat → Except String String

/-- External LedgerClient capability, the web3 Connection object of App.js:
balance lookup, latest blockhash, raw transaction submission, confirmation
and airdrop. confirmTransaction is none when the confirmation promise does
not resolve within the 30 second race of lines 214 to 223 (the timeout branch
wins); some e is a resolved confirmation whose value.err field is e (none for
a clean success). -/
structure Ledger where
  getBalance : String → Except String Nat
  getLatestBlockhash : Except String (String × Nat)
  sendRawTransaction : Except String String
  confirmTransaction : Option (Option String)
  requestAirdrop : String → Option ℚ → Except String String
  confirmAirdrop : Except String Unit

/-- Observable calls made while running one operation. Constructors with the
net marker are LedgerClient (network) calls; decodeSecret, deriveKeypair and
buildTransaction are the local stage 4 steps of the transfer pipeline. -/
inductive Ev where
  | netGetBalance (publicKey : String)
  | netGetLatestBlockhash
  | netSendRawTransaction
  | netConfirmTransaction
  | netRequestAirdrop (publicKey : String)
  | netConfirmAirdrop
  | decodeSecret
  | deriveKeypair
  | buildTransaction
deriving Repr, DecidableEq

/-- Network events are exactly the LedgerClient calls. -/
def Ev.isNet : Ev → Bool
  | .decodeSecret => false
  | .deriveKeypair => false
  | .buildTransaction => false
  | _ => true

/-- Numeric value of a digit list, most significant first. -/
def digitsVal (l : List Char) : Nat :=
  l.foldl (fun a c => 10 * a + (c.toNat - 48)) 0

/-- Model of the JavaScript parseFloat builtin as used at lines 114, 163 and
170 of App.js: skip leading spaces, read an optional sign, integer digits and
an optional fraction, ignore any trailing text, and yield none when no digit
at all was read (the NaN case). Exponent forms are not modelled; no claim
exercises them. -/
def parseFloat (s : String) : Option ℚ :=
  let cs0 := s.toList.dropWhile (fun c => c = ' ')
  let sc : ℚ × List Char :=
    match cs0 with
    | '-' :: t => (-1, t)
    | '+' :: t => (1, t)
    | _ => (1, cs0)
  let intDigits := sc.2.takeWhile Char.isDigit
  let rest := sc.2.dropWhile Char.isDigit
  let fracDigits : List Char :=
    match rest with
    | '.' :: t => t.takeWhile Char.isDigit
    | _ => []
  if intDigits = [] ∧ fracDigits = [] then none
  else some (sc.1 * ((digitsVal intDigits : ℚ) +
    (digitsVal fracDigits : ℚ) / (10 : ℚ) ^ fracDigits.length))

/-- JavaScript truthiness of a possibly absent string field: absent and the
empty string are falsy. -/
def truthyStr : Option String → Bool
  | none => false
  | some s => s != ""

/-- JavaScript truthiness of a possibly absent numeric id field: absent and 0
are falsy. -/
def truthyId : Option Int → Bool
  | none => false
  | some n => n != 0

/-- JavaScript less-than between a possibly absent number and a number: an
absent value compares through NaN, so the comparison is false. -/
def jsLt : Option ℚ → ℚ → Bool
  | none, _ => false
  | some a, b => decide (a < b)

/-- Embedding of getBalance, lines 79 to 88 of App.js: parse the address and
ask the ledger; on any failure the catch at line 84 swallows the error and
returns 0 lamports to the caller, reporting nothing. The second component is
the list of network calls made. -/
def getBalance (env : Crypto) (led : Ledger) (publicKeyString : Option String) :
    Nat × List Ev :=
  match env.parsePubkey publicKeyString with
  | .error _ => (0, [])
  | .ok publicKey =>
    match led.getBalance publicKey with
    | .ok balance => (balance, [Ev.netGetBalance publicKey])
    | .error _ => (0, [Ev.netGetBalance publicKey])

/-- Embedding of refreshBalance, lines 90 to 104 of App.js: map over the
address list and, for the record with the given id, overwrite its balance by
the looked-up lamports divided by LAMPORTS_PER_SOL, leaving every other
record untouched. Also returns the trace of network calls. -/
def refreshBalance (env : Crypto) (led : Ledger) (book : List Rec)
    (id : Option Int) : List Rec × List Ev :=
  match book with
  | [] => ([], [])
  | addr :: rest =>
    let tail := refreshBalance env led rest id
    if addr.id = id then
      let b := getBalance env led addr.publicKey
      ({ addr with balance := some ((b.1 : ℚ) / LAMPORTS_PER_SOL) } :: tail.1,
        b.2 ++ tail.2)
    else
      (addr :: tail.1, tail.2)

/-- Embedding of createSolanaAddress, lines 42 to 57 of App.js. The calls
Keypair.generate, toString and bs58.encode are external effects, so the
generated public key text and encoded secret are parameters, as is the
Date.now() reading used as the id. The new record is appended with balance 0
and showPrivate false. -/
def createSolanaAddress (now : Int) (publicKey secretKeyBase58 : String)
    (book : List Rec) : List Rec :=
  book ++ [{ id := some now, publicKey := some publicKey,
             privateKey := some secretKeyBase58,
             showPrivate := some false, balance := some 0 }]

/-- Outcome of one requestAirdrop run, one constructor per exit of the source
function: silent return on an unknown id, the cap alert of line 116, the
catch of line 129, and the success alert of line 126. -/
inductive AirdropOutcome where
  | notFound
  | capExceeded
  | failed (msg : String)
  | success (signature : String)
deriving Repr, DecidableEq

/-- Network half of requestAirdrop, lines 120 to 128 of App.js: request the
airdrop, confirm it, then refresh the balance of the target record. The
lamports argument is none when the faucet amount did not parse, since the NaN
flows through the multiplication at line 120. -/
def requestAirdropSubmit (env : Crypto) (led : Ledger) (book : List Rec)
    (publicKey : String) (lamports : Option ℚ) (id : Option Int) :
    AirdropOutcome × List Rec × List Ev :=
  match led.requestAirdrop publicKey lamports with
  | .error m => (.failed m, book, [Ev.netRequestAirdrop publicKey])
  | .ok signature =>
    match led.confirmAirdrop with
    | .error m =>
      (.failed m, book, [Ev.netRequestAirdrop publicKey, Ev.netConfirmAirdrop])
    | .ok _ =>
      let r := refreshBalance env led book id
      (.success signature, r.1,
        Ev.netRequestAirdrop publicKey :: Ev.netConfirmAirdrop :: r.2)

/-- Embedding of requestAirdrop, lines 107 to 133 of App.js: find the record,
parse its address (a throw lands in the catch at line 129), parse the faucet
amount and reject amounts above the 2 SOL cap before any network call. The
cap guard of line 115 uses a strict greater-than, and a NaN amount slips past
it because NaN compared with 2 is false. -/
def requestAirdrop (env : Crypto) (led : Ledger) (book : List Rec)
    (faucetAmount : String) (id : Option Int) :
    AirdropOutcome × List Rec × List Ev :=
  match book.find? (fun a => a.id == id) with
  | none => (.notFound, book, [])
  | some targetAddr =>
    match env.parsePubkey targetAddr.publicKey with
    | .error m => (.failed m, book, [])
    | .ok publicKey =>
      match parseFloat faucetAmount with
      | some requestedAmount =>
        if requestedAmount > 2 then (.capExceeded, book, [])
        else requestAirdropSubmit env led book publicKey
          (some (requestedAmount * LAMPORTS_PER_SOL)) id
      | none => requestAirdropSubmit env led book publicKey none id

/-- Transfer form state of App.js, lines 135 to 139: three raw strings. -/
structure TransferData where
  fromId : String
  toPubkey : String
  amount : String
deriving Repr, DecidableEq

/-- Outcome of one transferSOL run, one constructor per alert or throw site
of the source: the four local validation alerts of lines 152, 158, 165 and
172, the destination alerts of lines 181 and 185, the outer catch fed by a
library or network throw (thrown), the timeout rejection built at line 221
(confirmationTimeout, alert text Transaction confirmation timeout), the
on-chain failure thrown at line 226 (ledgerRejection, alert text prefixed
Transaction failed), and the success alert of line 229. The timeout and the
on-chain failure reach the user through distinct messages, so they are kept
as distinct constructors. -/
inductive TransferOutcome where
  | missingFields
  | invalidFromAddr
  | invalidAmount
  | insufficientFunds
  | invalidDestinationFormat
  | invalidDestination
  | thrown (msg : String)
  | confirmationTimeout
  | ledgerRejection (err : String)
  | success (signature : String)
deriving Repr, DecidableEq

/-- Matcher of line 156 of App.js: item.id.toString() === fromId. A record
with an absent id cannot match (in the source that case would throw into the
outer catch before matching anything). -/
def matchesFromId (fromId : String) (a : Rec) : Bool :=
  match a.id with
  | some n => toString n == fromId
  | none => false

/-- Stage 4 onward of transferSOL, lines 189 to 242 of App.js: decode the
source secret, derive the keypair, build the single-instruction transfer of
transferAmount times LAMPORTS_PER_SOL lamports (the built transaction itself
flows only into the abstract submission oracle, so it is recorded as the
buildTransaction event), fetch the latest blockhash, sign and submit, race
the confirmation against the 30 second timer, check the on-chain error field
and refresh the source balance on success. A library or network throw lands
in the outer catch of line 239 as the thrown outcome. -/
def transferBuildAndSend (env : Crypto) (led : Ledger) (book : List Rec)
    (fromAddr : Rec) (transferAmount : ℚ) :
    TransferOutcome × List Rec × List Ev :=
  match env.bs58decode fromAddr.privateKey with
  | .error m => (.thrown m, book, [Ev.decodeSecret])
  | .ok secretKey =>
    match env.fromSecretKey secretKey with
    | .error m => (.thrown m, book, [Ev.decodeSecret, Ev.deriveKeypair])
    | .ok _fromPubkey =>
      let _lamports := transferAmount * LAMPORTS_PER_SOL
      match led.getLatestBlockhash with
      | .error m => (.thrown m, book,
          [Ev.decodeSecret, Ev.deriveKeypair, Ev.buildTransaction,
           Ev.netGetLatestBlockhash])
      | .ok _ref =>
        match led.sendRawTransaction with
        | .error m => (.thrown m, book,
            [Ev.decodeSecret, Ev.deriveKeypair, Ev.buildTransaction,
             Ev.netGetLatestBlockhash, Ev.netSendRawTransaction])
        | .ok signature =>
          match led.confirmTransaction with
          | none => (.confirmationTimeout, book,
              [Ev.decodeSecret, Ev.deriveKeypair, Ev.buildTransaction,
               Ev.netGetLatestBlockhash, Ev.netSendRawTransaction,
               Ev.netConfirmTransaction])
          | some (some e) => (.ledgerRejection e, book,
              [Ev.decodeSecret, Ev.deriveKeypair, Ev.buildTransaction,
               Ev.netGetLatestBlockhash, Ev.netSendRawTransaction,
               Ev.netConfirmTransaction])
          | some none =>
            let r := refreshBalance env led book fromAddr.id
            (.success signature, r.1,
              [Ev.decodeSecret, Ev.deriveKeypair, Ev.buildTransaction,
               Ev.netGetLatestBlockhash, Ev.netSendRawTransaction,
               Ev.netConfirmTransaction] ++ r.2)

/-- Stage 3 of transferSOL, lines 176 to 187 of App.js: the destination text
must parse as an address and the parsed address must lie on the curve; only
then does stage 4 run. Both rejections happen before any decode, build or
network activity. -/
def transferValidateDest (env : Crypto) (led : Ledger) (book : List Rec)
    (fromAddr : Rec) (toPubkey : String) (transferAmount : ℚ) :
    TransferOutcome × List Rec × List Ev :=
  match env.parsePubkey (some toPubkey) with
  | .error _ => (.invalidDestinationFormat, book, [])
  | .ok toPublicKey =>
    if env.isOnCurve toPublicKey = false then
      (.invalidDestination, book, [])
    else
      transferBuildAndSend env led book fromAddr transferAmount

/-- Embedding of transferSOL, lines 146 to 243 of App.js: presence check
(line 151), source lookup (line 156), amount parse and positivity (lines 163
to 167), balance pre-check against amount plus FEE_RESERVE (lines 170 to
174; the comparison goes through parseFloat of the cached balance, so an
absent balance behaves like NaN and passes), then stages 3 onward. Returns
the outcome, the resulting address book and the trace of observable calls. -/
def transferSOL (env : Crypto) (led : Ledger) (book : List Rec)
    (td : TransferData) : TransferOutcome × List Rec × List Ev :=
  if td.fromId = "" ∨ td.toPubkey = "" ∨ td.amount = "" then
    (.missingFields, book, [])
  else
    match book.find? (matchesFromId td.fromId) with
    | none => (.invalidFromAddr, book, [])
    | some fromAddr =>
      match parseFloat td.amount with
      | none => (.invalidAmount, book, [])
      | some transferAmount =>
        if transferAmount ≤ 0 then (.invalidAmount, book, [])
        else if jsLt fromAddr.balance (transferAmount + FEE_RESERVE) then
          (.insufficientFunds, book, [])
        else
          transferValidateDest env led book fromAddr td.toPubkey transferAmount

/-- Embedding of the per-entry validation inside loadKeypairs, lines 282 to
301 of App.js: presence (truthiness) of publicKey, privateKey and id, then
the PublicKey parse, then base58 decode and the 64-byte length check. The
inner try of lines 293 to 300 catches its own length throw, so both a decode
failure and a wrong length surface as the same format message. -/
def validateEntry (env : Crypto) (addr : Rec) : Except String Unit :=
  if truthyStr addr.publicKey = false ∨ truthyStr addr.privateKey = false ∨
      truthyId addr.id = false then
    .error "Invalid keypair format"
  else
    match env.parsePubkey addr.publicKey with
    | .error _ => .error "Invalid public key format"
    | .ok _ =>
      match env.bs58decode addr.privateKey with
      | .error _ => .error "Invalid private key format"
      | .ok decoded =>
        if decoded.length ≠ 64 then .error "Invalid private key format"
        else .ok ()

/-- forEach of line 282 of App.js: validation stops at the first failing
entry and its throw aborts the whole load. -/
def validateAll (env : Crypto) : List Rec → Except String Unit
  | [] => .ok ()
  | addr :: rest =>
    match validateEntry env addr with
    | .error m => .error m
    | .ok _ => validateAll env rest

/-- Embedding of loadKeypairs, lines 267 to 317 of App.js, after the file has
been read: a payload of none models a file whose JSON parse throws or that is
not an array (both abort before validation, line 277); otherwise every entry
is validated, then the merge of lines 303 to 308 keeps exactly the loaded
entries whose publicKey is not already present in the book and appends them
in input order. An error result corresponds to the catch path, which performs
no setAddresses. -/
def loadKeypairs (env : Crypto) (book : List Rec)
    (payload : Option (List Rec)) : Except String (List Rec) :=
  match payload with
  | none => .error "Invalid file format: expected an array of keypairs"
  | some loadedAddresses =>
    match validateAll env loadedAddresses with
    | .error m => .error m
    | .ok _ =>
      let existingPubKeys := book.map Rec.publicKey
      let newAddresses := loadedAddresses.filter
        (fun a => ! existingPubKeys.contains a.publicKey)
      .ok (book ++ newAddresses)

/-- State-level view of loadKeypairs: the book after the call together with
the failure message when the load was rejected; on the catch path the book is
returned unchanged because no setAddresses runs. -/
def applyImport (env : Crypto) (book : List Rec)
    (payload : Option (List Rec)) : List Rec × Option String :=
  match loadKeypairs env book payload with
  | .ok b => (b, none)
  | .error m => (book, some m)

/-! Concrete sample oracles and records used to instantiate the theorems. -/

/-- Capability oracle on which every operation succeeds: any present address
text parses to itself, every address is on the curve, any present secret
decodes to 64 bytes, derivation succeeds. -/
def cryptoOk : Crypto where
  parsePubkey := fun s =>
    match s with
    | some t => .ok t
    | none => .error "Invalid public key input"
  isOnCurve := fun _ => true
  bs58decode := fun s =>
    match s with
    | some _ => .ok (List.replicate 64 1)
    | none => .error "Expected String"
  fromSecretKey := fun _ => .ok "DERIVED"

/-- Capability oracle whose base58 decoding yields 63 bytes, one short of the
expected secret length. -/
def crypto63 : Crypto where
  parsePubkey := fun s =>
    match s with
    | some t => .ok t
    | none => .error "Invalid public key input"
  isOnCurve := fun _ => true
  bs58decode := fun s =>
    match s with
    | some _ => .ok (List.replicate 63 1)
    | none => .error "Expected String"
  fromSecretKey := fun _ => .ok "DERIVED"

/-- Capability oracle whose address parser rejects every destination. -/
def cryptoBadDest : Crypto where
  parsePubkey := fun _ => .error "Invalid public key input"
  isOnCurve := fun _ => false
  bs58decode := fun _ => .error "Expected String"
  fromSecretKey := fun _ => .error "Invalid secret key"

/-- Capability oracle on which every address parses but none lies on the
curve. -/
def cryptoOffCurve : Crypto where
  parsePubkey := fun s =>
    match s with
    | some t => .ok t
    | none => .error "Invalid public key input"
  isOnCurve := fun _ => false
  bs58decode := fun s =>
    match s with
    | some _ => .ok (List.replicate 64 1)
    | none => .error "Expected String"
  fromSecretKey := fun _ => .ok "DERIVED"

/-- Ledger oracle on which every network call fails with a transport
error. -/
def ledgerNetFail : Ledger where
  getBalance := fun _ => .error "Network request failed"
  getLatestBlockhash := .error "Network request failed"
  sendRawTransaction := .error "Network request failed"
  confirmTransaction := none
  requestAirdrop := fun _ _ => .error "Network request failed"
  confirmAirdrop := .error "Network request failed"

/-- Ledger oracle on which blockhash fetch and submission succeed but the
transfer confirmation never resolves within the 30 second window. -/
def ledgerTimeout : Ledger where
  getBalance := fun _ => .ok 7000000000
  getLatestBlockhash := .ok ("BLOCKHASH", 100)
  sendRawTransaction := .ok "SIG"
  confirmTransaction := none
  requestAirdrop := fun _ _ => .ok "ASIG"
  confirmAirdrop := .ok ()

/-- Sample created record with id 1 and zero balance. -/
def recK : Rec :=
  { id := some 1, publicKey := some "PKA", privateKey := some "SKA",
    showPrivate := some false, balance := some 0 }

/-- Sample created record with id 1 and a cached balance of 5 SOL. -/
def recW : Rec :=
  { id := some 1, publicKey := some "PKW", privateKey := some "SKW",
    showPrivate := some false, balance := some 5 }

/-- Import entry whose secret decodes to 63 bytes under crypto63. -/
def entry63 : Rec :=
  { id := some 9, publicKey := some "PK63", privateKey := some "SK63",
    showPrivate := none, balance := none }

/-- Import entry with a fresh publicKey but reusing the id of recK. -/
def entryNew : Rec :=
  { id := some 1, publicKey := some "PKNEW", privateKey := some "SKN",
    showPrivate := none, balance := none }

/-- Import entry duplicating the publicKey of recK under a fresh id. -/
def entryDup : Rec :=
  { id := some 77, publicKey := some "PKA", privateKey := some "SKD",
    showPrivate := none, balance := none }

/-- Import entry whose stated public key is unrelated to its secret. -/
def entryUnpaired : Rec :=
  { id := some 5, publicKey := some "PK_NOT_DERIVED_FROM_SECRET",
    privateKey := some "SOME_SECRET", showPrivate := none, balance := none }

/-- Entry defect listed by the import contract: a missing field, a public key
rejected by the address parser, or a secret decoding to a length other than
64 bytes. -/
def badEntry (env : Crypto) (e : Rec) : Prop :=
  e.id = none ∨ e.publicKey = none ∨ e.privateKey = none ∨
  (∃ m, env.parsePubkey e.publicKey = .error m) ∨
  (∃ bs, env.bs58decode e.privateKey = .ok bs ∧ bs.length ≠ 64)

/-! Helper lemmas. -/

lemma validateAll_ok_of (env : Crypto) (l : List Rec)
    (h : ∀ e ∈ l, validateEntry env e = .ok ()) : validateAll env l = .ok () := by
  induction l with
  | nil => rfl
  | cons a t ih =>
    have ha := h a (List.mem_cons_self a t)
    simp only [validateAll, ha]
    exact ih (fun e he => h e (List.mem_cons_of_mem a he))

lemma validateAll_error_of (env : Crypto) (l : List Rec) (e : Rec)
    (he : e ∈ l) (hbad : validateEntry env e ≠ .ok ()) :
    ∃ m, validateAll env l = .error m := by
  induction l with
  | nil => cases he
  | cons a t ih =>
    rcases List.mem_cons.mp he with rfl | ht
    · cases hv : validateEntry env e with
      | error m => exact ⟨m, by simp [validateAll, hv]⟩
      | ok u => cases u; exact absurd hv hbad
    · cases hv : validateEntry env a with
      | error m => exact ⟨m, by simp [validateAll, hv]⟩
      | ok u =>
        cases u
        obtain ⟨m, hm⟩ := ih ht
        exact ⟨m, by simp [validateAll, hv, hm]⟩

lemma validateEntry_ne_ok_of_bad (env : Crypto) (e : Rec) (h : badEntry env e) :
    validateEntry env e ≠ .ok () := by
  unfold validateEntry
  by_cases hc : truthyStr e.publicKey = false ∨ truthyStr e.privateKey = false ∨
      truthyId e.id = false
  · simp [hc]
  · rcases h with h | h | h | ⟨m, hm⟩ | ⟨bs, hbs, hlen⟩
    · exact absurd (Or.inr (Or.inr (by simp [h, truthyId]))) hc
    · exact absurd (Or.inl (by simp [h, truthyStr])) hc
    · exact absurd (Or.inr (Or.inl (by simp [h, truthyStr]))) hc
    · simp [hc, hm]
    · simp [hc, hbs, hlen]
      split <;> simp

lemma transferValidateDest_ne_insufficient (env : Crypto) (led : Ledger)
    (book : List Rec) (fromAddr : Rec) (toPk : String) (amt : ℚ) :
    (transferValidateDest env led book fromAddr toPk amt).1 ≠
      TransferOutcome.insufficientFunds := by
  unfold transferValidateDest transferBuildAndSend
  split
  · simp
  · split
    · simp
    · split
      · simp
      · split
        · simp
        · split
          · simp
          · split
            · simp
            · split <;> simp

lemma transferSOL_net_head (env : Crypto) (led : Ledger) (book : List Rec)
    (td : TransferData) :
    ((transferSOL env led book td).2.2.filter Ev.isNet) = [] ∨
    ∃ rest, ((transferSOL env led book td).2.2.filter Ev.isNet) =
      Ev.netGetLatestBlockhash :: rest := by
  unfold transferSOL transferValidateDest transferBuildAndSend
  split
  · left; rfl
  · split
    · left; rfl
    · split
      · left; rfl
      · split
        · left; rfl
        · split
          · left; rfl
          · split
            · left; rfl
            · split
              · left; rfl
              · split
                · left; simp [Ev.isNet]
                · split
                  · left; simp [Ev.isNet]
                  · split
                    · right; exact ⟨[], by simp [Ev.isNet]⟩
                    · split
                      · right; exact ⟨[Ev.netSendRawTransaction], by simp [Ev.isNet]⟩
                      · split
                        · right
                          exact ⟨[Ev.netSendRawTransaction, Ev.netConfirmTransaction],
                            by simp [Ev.isNet]⟩
                        · right
                          exact ⟨[Ev.netSendRawTransaction, Ev.netConfirmTransaction],
                            by simp [Ev.isNet]⟩
                        · right
                          simp [Ev.isNet]

/-! Claim theorems. -/

/-- C1: evaluation of the code at the failing input of the balance refresh
contract. A record whose cached balance is 5 SOL undergoes a refresh while
the ledger lookup fails with a network error; the code overwrites the
balance with 0, and its return channel carries no failure at all
(refreshBalance produces only the new book and the call trace), contradicting
the requirement that the prior value be kept and the failure reported. -/
theorem c1_refresh_zeroes_balance_on_failed_lookup :
    (refreshBalance cryptoOk ledgerNetFail
      [{ id := some 1, publicKey := some "PKW", privateKey := some "SKW",
         showPrivate := some false, balance := some 5 }] (some 1)).1 =
    [{ id := some 1, publicKey := some "PKW", privateKey := some "SKW",
       showPrivate := some false, balance := some 0 }] := by
  simp [refreshBalance, getBalance, cryptoOk, ledgerNetFail, LAMPORTS_PER_SOL]

/-- C2 counterexample: a request whose cached balance equals amount plus
FEE_RESERVE exactly, so the balance does not strictly exceed the threshold,
still proceeds past the pre-check into stage 3 (the run ends at destination
validation, not at InsufficientFundsError), refuting the claim that passing
the pre-check requires a strict excess. -/
theorem c2_boundary_counterexample :
    ¬ ((4001 / 200000 : ℚ) > 1 / 50 + FEE_RESERVE) ∧
    parseFloat "0.02" = some (1 / 50) ∧
    (transferSOL cryptoBadDest ledgerNetFail
      [{ id := some 1, publicKey := some "PKW", privateKey := some "SKW",
         showPrivate := some false, balance := some (4001 / 200000) }]
      { fromId := "1", toPubkey := "DEST", amount := "0.02" }).1 =
      TransferOutcome.invalidDestinationFormat := by
  refine ⟨by norm_num [FEE_RESERVE], by simp [parseFloat, digitsVal]; norm_num, ?_⟩
  have h1 : toString (1 : Int) = "1" := by decide
  simp [transferSOL, transferValidateDest, cryptoBadDest, parseFloat, digitsVal,
    matchesFromId, jsLt, FEE_RESERVE, h1]
  norm_num

/-- C2 amended: the transfer proceeds past the balance pre-check if and only
if the cached source balance is at least amount plus FEE_RESERVE (greater
than or equal, not strictly greater); otherwise the run ends in
InsufficientFundsError with the book unchanged and no call of any kind
made. -/
theorem c2_precheck_at_least (env : Crypto) (led : Ledger) (book : List Rec)
    (td : TransferData) (fromAddr : Rec) (amt bal : ℚ)
    (hfrom : td.fromId ≠ "") (hto : td.toPubkey ≠ "") (hamt : td.amount ≠ "")
    (hfind : book.find? (matchesFromId td.fromId) = some fromAddr)
    (hparse : parseFloat td.amount = some amt) (hpos : 0 < amt)
    (hbal : fromAddr.balance = some bal) :
    ((transferSOL env led book td).1 = TransferOutcome.insufficientFunds ↔
      bal < amt + FEE_RESERVE) ∧
    (bal < amt + FEE_RESERVE →
      transferSOL env led book td = (.insufficientFunds, book, [])) := by
  have hne : ¬ amt ≤ 0 := not_le.mpr hpos
  by_cases hlt : bal < amt + FEE_RESERVE
  · constructor
    · constructor
      · intro _; exact hlt
      · intro _
        simp [transferSOL, hfrom, hto, hamt, hfind, hparse, hne, hbal, jsLt, hlt]
    · intro _
      simp [transferSOL, hfrom, hto, hamt, hfind, hparse, hne, hbal, jsLt, hlt]
  · constructor
    · constructor
      · intro hout
        have hred : (transferSOL env led book td).1 =
            (transferValidateDest env led book fromAddr td.toPubkey amt).1 := by
          simp [transferSOL, hfrom, hto, hamt, hfind, hparse, hne, hbal, jsLt, hlt]
        rw [hred] at hout
        exact absurd hout (transferValidateDest_ne_insufficient env led book
          fromAddr td.toPubkey amt)
      · intro h; exact absurd h hlt
    · intro h; exact absurd h hlt

/-- C2 amended witness: cached balance 0.01 with amount 0.02 is rejected as
InsufficientFundsError with no call made. -/
theorem c2_precheck_at_least_witness :
    transferSOL cryptoOk ledgerNetFail
      [{ id := some 1, publicKey := some "PKW", privateKey := some "SKW",
         showPrivate := some false, balance := some (1 / 100) }]
      { fromId := "1", toPubkey := "DEST", amount := "0.02" } =
      (.insufficientFunds,
       [{ id := some 1, publicKey := some "PKW", privateKey := some "SKW",
          showPrivate := some false, balance := some (1 / 100) }], []) := by
  have h := c2_precheck_at_least cryptoOk ledgerNetFail
    [{ id := some 1, publicKey := some "PKW", privateKey := some "SKW",
       showPrivate := some false, balance := some (1 / 100) }]
    { fromId := "1", toPubkey := "DEST", amount := "0.02" }
    { id := some 1, publicKey := some "PKW", privateKey := some "SKW",
      showPrivate := some false, balance := some (1 / 100) }
    (1 / 50) (1 / 100)
    (by decide) (by decide) (by decide)
    (by have h1 : toString (1 : Int) = "1" := by decide
        simp [matchesFromId, h1])
    (by simp [parseFloat, digitsVal]; norm_num)
    (by norm_num) rfl
  exact h.2 (by norm_num [FEE_RESERVE])

/-- C3: a transfer whose amount is empty, unparseable or not strictly
positive is rejected by one of the stage 1 validation alerts, with the book
unchanged and an empty call trace, so no LedgerClient call of any kind is
made; moreover in every run of the pipeline the network calls, if any, start
at the stage 5 blockhash fetch, so stages 1 through 4 perform no network
I/O. -/
theorem c3_invalid_amount_rejected_locally (env : Crypto) (led : Ledger)
    (book : List Rec) (td : TransferData) (fromAddr : Rec)
    (hfind : book.find? (matchesFromId td.fromId) = some fromAddr)
    (hbad : td.amount = "" ∨ parseFloat td.amount = none ∨
      ∃ q, parseFloat td.amount = some q ∧ q ≤ 0) :
    (((transferSOL env led book td).1 = TransferOutcome.missingFields ∨
      (transferSOL env led book td).1 = TransferOutcome.invalidAmount) ∧
     (transferSOL env led book td).2.1 = book ∧
     (transferSOL env led book td).2.2 = []) ∧
    ∀ (env2 : Crypto) (led2 : Ledger) (book2 : List Rec) (td2 : TransferData),
      ((transferSOL env2 led2 book2 td2).2.2.filter Ev.isNet) = [] ∨
      ∃ rest, ((transferSOL env2 led2 book2 td2).2.2.filter Ev.isNet) =
        Ev.netGetLatestBlockhash :: rest := by
  refine ⟨?_, fun env2 led2 book2 td2 => transferSOL_net_head env2 led2 book2 td2⟩
  by_cases hp : td.fromId = "" ∨ td.toPubkey = "" ∨ td.amount = ""
  · simp [transferSOL, hp]
  · rcases hbad with h | h | ⟨q, hq, hle⟩
    · exact absurd (Or.inr (Or.inr h)) hp
    · simp [transferSOL, hp, hfind, h]
    · simp [transferSOL, hp, hfind, hq, hle]

/-- C3 witness: amount 0 from a known source record is rejected locally. -/
theorem c3_invalid_amount_rejected_locally_witness :
    ((transferSOL cryptoOk ledgerNetFail [recK]
        { fromId := "1", toPubkey := "DEST", amount := "0" }).1 =
      TransferOutcome.missingFields ∨
     (transferSOL cryptoOk ledgerNetFail [recK]
        { fromId := "1", toPubkey := "DEST", amount := "0" }).1 =
      TransferOutcome.invalidAmount) ∧
    (transferSOL cryptoOk ledgerNetFail [recK]
        { fromId := "1", toPubkey := "DEST", amount := "0" }).2.1 = [recK] ∧
    (transferSOL cryptoOk ledgerNetFail [recK]
        { fromId := "1", toPubkey := "DEST", amount := "0" }).2.2 = [] := by
  have h := c3_invalid_amount_rejected_locally cryptoOk ledgerNetFail [recK]
    { fromId := "1", toPubkey := "DEST", amount := "0" } recK
    (by have h1 : toString (1 : Int) = "1" := by decide
        simp [recK, matchesFromId, h1])
    (Or.inr (Or.inr ⟨0, by simp [parseFloat, digitsVal], le_refl 0⟩))
  exact h.1

/-- C4: when every stage up to submission succeeds and the confirmation race
is won by the 30 second timer, the outcome is exactly the timeout rejection,
a constructor distinct from the on-chain rejection one; the book is returned
unchanged and the trace shows no balance refresh call after the confirmation
attempt. -/
theorem c4_confirmation_timeout (env : Crypto) (led : Ledger) (book : List Rec)
    (td : TransferData) (fromAddr : Rec) (amt bal : ℚ) (toPk : String)
    (sk : List Nat) (pub : String) (ref : String × Nat) (sig : String)
    (hfrom : td.fromId ≠ "") (hto : td.toPubkey ≠ "") (hamt : td.amount ≠ "")
    (hfind : book.find? (matchesFromId td.fromId) = some fromAddr)
    (hparse : parseFloat td.amount = some amt) (hpos : 0 < amt)
    (hbal : fromAddr.balance = some bal) (hsuff : ¬ bal < amt + FEE_RESERVE)
    (hdest : env.parsePubkey (some td.toPubkey) = .ok toPk)
    (hcurve : env.isOnCurve toPk = true)
    (hdec : env.bs58decode fromAddr.privateKey = .ok sk)
    (hkey : env.fromSecretKey sk = .ok pub)
    (hbh : led.getLatestBlockhash = .ok ref)
    (hsend : led.sendRawTransaction = .ok sig)
    (htimeout : led.confirmTransaction = none) :
    transferSOL env led book td =
      (.confirmationTimeout, book,
       [Ev.decodeSecret, Ev.deriveKeypair, Ev.buildTransaction,
        Ev.netGetLatestBlockhash, Ev.netSendRawTransaction,
        Ev.netConfirmTransaction]) ∧
    ∀ m, TransferOutcome.confirmationTimeout ≠ TransferOutcome.ledgerRejection m := by
  have hne : ¬ amt ≤ 0 := not_le.mpr hpos
  refine ⟨?_, fun m => by simp⟩
  simp [transferSOL, transferValidateDest, transferBuildAndSend, hfrom, hto,
    hamt, hfind, hparse, hne, hbal, jsLt, hsuff, hdest, hcurve, hdec, hkey,
    hbh, hsend, htimeout]

/-- C4 witness: a concrete run over a ledger whose confirmation never
resolves ends in the timeout outcome with the cached balance intact. -/
theorem c4_confirmation_timeout_witness :
    transferSOL cryptoOk ledgerTimeout [recW]
      { fromId := "1", toPubkey := "DEST", amount := "0.02" } =
      (.confirmationTimeout, [recW],
       [Ev.decodeSecret, Ev.deriveKeypair, Ev.buildTransaction,
        Ev.netGetLatestBlockhash, Ev.netSendRawTransaction,
        Ev.netConfirmTransaction]) ∧
    ∀ m, TransferOutcome.confirmationTimeout ≠ TransferOutcome.ledgerRejection m :=
  c4_confirmation_timeout cryptoOk ledgerTimeout [recW]
    { fromId := "1", toPubkey := "DEST", amount := "0.02" } recW
    (1 / 50) 5 "DEST" (List.replicate 64 1) "DERIVED" ("BLOCKHASH", 100) "SIG"
    (by decide) (by decide) (by decide)
    (by have h1 : toString (1 : Int) = "1" := by decide
        simp [recW, matchesFromId, h1])
    (by simp [parseFloat, digitsVal]; norm_num)
    (by norm_num) rfl (by norm_num [FEE_RESERVE]) rfl rfl rfl rfl rfl rfl rfl

/-- C5: an import payload that is not a sequence, or contains an entry with a
missing id, publicKey or privateKey, a publicKey failing address validation,
or a privateKey decoding to a length other than 64 bytes, is rejected whole
and the AddressBook is unchanged (no entry of the payload is merged). -/
theorem c5_invalid_payload_rejected (env : Crypto) (book : List Rec)
    (payload : Option (List Rec))
    (h : payload = none ∨ ∃ l e, payload = some l ∧ e ∈ l ∧ badEntry env e) :
    ∃ m, applyImport env book payload = (book, some m) := by
  rcases h with rfl | ⟨l, e, rfl, hel, hbad⟩
  · exact ⟨"Invalid file format: expected an array of keypairs", rfl⟩
  · obtain ⟨m, hm⟩ :=
      validateAll_error_of env l e hel (validateEntry_ne_ok_of_bad env e hbad)
    exact ⟨m, by simp [applyImport, loadKeypairs, hm]⟩

/-- C5 witness: a one-entry payload whose secret decodes to 63 bytes is
rejected whole and the book of size one is unchanged. -/
theorem c5_invalid_payload_rejected_witness :
    ∃ m, applyImport crypto63 [recK] (some [entry63]) = ([recK], some m) :=
  c5_invalid_payload_rejected crypto63 [recK] (some [entry63])
    (Or.inr ⟨[entry63], entry63, rfl, List.mem_singleton_self entry63,
      Or.inr (Or.inr (Or.inr (Or.inr ⟨List.replicate 63 1, rfl, by decide⟩)))⟩)

/-- C6: on a fully valid payload the merge keeps exactly the loaded entries
whose publicKey is not already in the book, appended after the existing
records in input order; deduplication looks only at publicKey. -/
theorem c6_merge_dedup_by_pubkey (env : Crypto) (book l : List Rec)
    (h : ∀ e ∈ l, validateEntry env e = .ok ()) :
    applyImport env book (some l) =
      (book ++ l.filter
        (fun a => ! (book.map Rec.publicKey).contains a.publicKey), none) := by
  simp [applyImport, loadKeypairs, validateAll_ok_of env l h]

/-- C6 witness: importing one new entry and one entry duplicating an existing
publicKey (under a fresh id, while the new entry reuses the existing id)
into a book of size 1 yields size 2, with only the new entry appended. -/
theorem c6_merge_dedup_by_pubkey_witness :
    applyImport cryptoOk [recK] (some [entryNew, entryDup]) =
      ([recK, entryNew], none) ∧ [recK, entryNew].length = [recK].length + 1 := by
  have h := c6_merge_dedup_by_pubkey cryptoOk [recK] [entryNew, entryDup]
    (by intro e he; fin_cases he <;> rfl)
  refine ⟨?_, rfl⟩
  rw [h]
  rfl

/-- C7: a destination that fails to parse, or parses to an off-curve
address, is rejected at stage 3 with the book unchanged and an empty trace,
so no secret decoding, keypair derivation, transaction build or network call
of any kind happens. -/
theorem c7_bad_destination_rejected_stage3 (env : Crypto) (led : Ledger)
    (book : List Rec) (td : TransferData) (fromAddr : Rec) (amt bal : ℚ)
    (hfrom : td.fromId ≠ "") (hto : td.toPubkey ≠ "") (hamt : td.amount ≠ "")
    (hfind : book.find? (matchesFromId td.fromId) = some fromAddr)
    (hparse : parseFloat td.amount = some amt) (hpos : 0 < amt)
    (hbal : fromAddr.balance = some bal) (hsuff : ¬ bal < amt + FEE_RESERVE)
    (hdest : (∃ m, env.parsePubkey (some td.toPubkey) = .error m) ∨
      ∃ k, env.parsePubkey (some td.toPubkey) = .ok k ∧
        env.isOnCurve k = false) :
    ((transferSOL env led book td).1 = TransferOutcome.invalidDestinationFormat ∨
     (transferSOL env led book td).1 = TransferOutcome.invalidDestination) ∧
    (transferSOL env led book td).2.1 = book ∧
    (transferSOL env led book td).2.2 = [] := by
  have hne : ¬ amt ≤ 0 := not_le.mpr hpos
  rcases hdest with ⟨m, hm⟩ | ⟨k, hk, hc⟩
  · refine ⟨Or.inl ?_, ?_, ?_⟩ <;>
      simp [transferSOL, transferValidateDest, hfrom, hto, hamt, hfind,
        hparse, hne, hbal, jsLt, hsuff, hm]
  · refine ⟨Or.inr ?_, ?_, ?_⟩ <;>
      simp [transferSOL, transferValidateDest, hfrom, hto, hamt, hfind,
        hparse, hne, hbal, jsLt, hsuff, hk, hc]

/-- C7 witness: a syntactically valid but off-curve destination is rejected
at stage 3 before any stage 4 activity. -/
theorem c7_bad_destination_rejected_stage3_witness :
    ((transferSOL cryptoOffCurve ledgerTimeout [recW]
        { fromId := "1", toPubkey := "OFFCURVE", amount := "0.02" }).1 =
       TransferOutcome.invalidDestinationFormat ∨
     (transferSOL cryptoOffCurve ledgerTimeout [recW]
        { fromId := "1", toPubkey := "OFFCURVE", amount := "0.02" }).1 =
       TransferOutcome.invalidDestination) ∧
    (transferSOL cryptoOffCurve ledgerTimeout [recW]
        { fromId := "1", toPubkey := "OFFCURVE", amount := "0.02" }).2.1 = [recW] ∧
    (transferSOL cryptoOffCurve ledgerTimeout [recW]
        { fromId := "1", toPubkey := "OFFCURVE", amount := "0.02" }).2.2 = [] :=
  c7_bad_destination_rejected_stage3 cryptoOffCurve ledgerTimeout [recW]
    { fromId := "1", toPubkey := "OFFCURVE", amount := "0.02" } recW
    (1 / 50) 5
    (by decide) (by decide) (by decide)
    (by have h1 : toString (1 : Int) = "1" := by decide
        simp [recW, matchesFromId, h1])
    (by simp [parseFloat, digitsVal]; norm_num)
    (by norm_num) rfl (by norm_num [FEE_RESERVE])
    (Or.inr ⟨"OFFCURVE", rfl, rfl⟩)

/-- C8: a faucet request whose parsed amount exceeds the cap of 2 display
units never succeeds and produces an empty call trace, so it is rejected
before any network call. -/
theorem c8_faucet_cap_no_network (env : Crypto) (led : Ledger)
    (book : List Rec) (faucetAmount : String) (id : Option Int) (q : ℚ)
    (hq : parseFloat faucetAmount = some q) (hcap : 2 < q) :
    (∀ s, (requestAirdrop env led book faucetAmount id).1 ≠
      AirdropOutcome.success s) ∧
    (requestAirdrop env led book faucetAmount id).2.1 = book ∧
    (requestAirdrop env led book faucetAmount id).2.2 = [] := by
  unfold requestAirdrop
  split
  · simp
  · split
    · simp
    · simp [hq, hcap]

/-- C8 witness: a faucet request of 3 display units against the cap of 2 is
rejected with no network call. -/
theorem c8_faucet_cap_no_network_witness :
    (∀ s, (requestAirdrop cryptoOk ledgerNetFail [recK] "3" (some 1)).1 ≠
      AirdropOutcome.success s) ∧
    (requestAirdrop cryptoOk ledgerNetFail [recK] "3" (some 1)).2.1 = [recK] ∧
    (requestAirdrop cryptoOk ledgerNetFail [recK] "3" (some 1)).2.2 = [] :=
  c8_faucet_cap_no_network cryptoOk ledgerNetFail [recK] "3" (some 1) 3
    (by simp [parseFloat, digitsVal]) (by norm_num)

/-- C9: evaluation of the code at the failing input of the id uniqueness
invariant. Two createSolanaAddress calls that read the same Date.now()
millisecond produce two records sharing one id, so id uniqueness does not
hold at all times. -/
theorem c9_duplicate_ids_on_equal_clock :
    ((createSolanaAddress 1700000000000 "PK2" "SK2"
        (createSolanaAddress 1700000000000 "PK1" "SK1" [])).map Rec.id =
      [some 1700000000000, some 1700000000000]) ∧
    ¬ ((createSolanaAddress 1700000000000 "PK2" "SK2"
        (createSolanaAddress 1700000000000 "PK1" "SK1" [])).map Rec.id).Nodup := by
  refine ⟨rfl, ?_⟩
  decide

/-- C10: import validation is purely syntactic, so any entry whose fields are
present, whose publicKey parses and whose privateKey decodes to 64 bytes is
accepted and enters the book, with no check that the two keys are
cryptographically paired. -/
theorem c10_import_ignores_pairing (env : Crypto) (book : List Rec) (e : Rec)
    (hid : truthyId e.id = true) (hpk : truthyStr e.publicKey = true)
    (hsk : truthyStr e.privateKey = true)
    (hsyn : ∃ k, env.parsePubkey e.publicKey = .ok k)
    (hlen : ∃ bs, env.bs58decode e.privateKey = .ok bs ∧ bs.length = 64)
    (hnew : (book.map Rec.publicKey).contains e.publicKey = false) :
    applyImport env book (some [e]) = (book ++ [e], none) := by
  obtain ⟨k, hk⟩ := hsyn
  obtain ⟨bs, hbs, hl⟩ := hlen
  have hv : validateEntry env e = .ok () := by
    unfold validateEntry
    simp [hid, hpk, hsk, hk, hbs, hl]
  have hnew2 : ∀ x ∈ book, ¬ x.publicKey = e.publicKey := by
    simpa using hnew
  simp [applyImport, loadKeypairs, validateAll, hv]
  exact hnew2

/-- C10 witness: an entry whose 64-byte secret bears no relation to its
stated public key is accepted into an empty book. -/
theorem c10_import_ignores_pairing_witness :
    applyImport cryptoOk [] (some [entryUnpaired]) = ([entryUnpaired], none) := by
  have h := c10_import_ignores_pairing cryptoOk [] entryUnpaired
    (by rfl) (by rfl) (by rfl)
    ⟨"PK_NOT_DERIVED_FROM_SECRET", rfl⟩
    ⟨List.replicate 64 1, rfl, by decide⟩ (by rfl)
  simpa using h

end SolanaKeygen
